import Mathlib

/-!
Verification of the loyalty/affiliate backend (Python, FastAPI + SQLAlchemy).

The points ledger, tier progression, reward redemption, affiliate commission
and ERP sale-sync logic from `backend/app/services/` are shallowly embedded:
database tables become lists of records, each service method becomes a pure
function from a database state to either an error string (the `ValueError`
message the Python code raises) or an updated state.  Python `int` is `Int`,
money (`float` / `DECIMAL`) is `ℚ`, timestamps are `Int`, and the string-valued
`str`-enums (`TransactionType`, `TransactionSource`, `RewardStatus`, ...) are
plain strings carrying the enum values.  Randomly generated redemption codes
and audit timestamps (`created_at`, `last_activity`) are not modelled; no
claim refers to them.
-/

namespace LoyaltyERP

/-- Customer tiers, from `CustomerTier` in `app/models/customer.py`. -/
inductive CustomerTier where
  | bronze
  | silver
  | gold
  | platinum
  deriving DecidableEq, Repr

/-- String values of the `TransactionType` str-enum in `app/models/loyalty.py`. -/
def TransactionType.EARNED : String := "earned"

def TransactionType.REDEEMED : String := "redeemed"

def TransactionType.EXPIRED : String := "expired"

def TransactionType.ADJUSTMENT : String := "adjustment"

def TransactionType.TRANSFER : String := "transfer"

/-- String values of the `TransactionSource` str-enum in `app/models/loyalty.py`.
The enum's only members are PURCHASE, REFERRAL, BIRTHDAY, PROMOTION, MANUAL and
SYSTEM.  `transfer_points` in `loyalty_service.py` also references
`TransactionSource.TRANSFER`, which does not exist: that access raises
`AttributeError` at run time and is embedded as the error outcome of
`transferPoints` below, not as an extra member here. -/
def TransactionSource.PURCHASE : String := "purchase"

def TransactionSource.REFERRAL : String := "referral"

def TransactionSource.BIRTHDAY : String := "birthday"

def TransactionSource.PROMOTION : String := "promotion"

def TransactionSource.MANUAL : String := "manual"

def TransactionSource.SYSTEM : String := "system"

/-- String values of the `RewardStatus` str-enum in `app/models/loyalty.py`. -/
def RewardStatus.ACTIVE : String := "active"

def RewardStatus.INACTIVE : String := "inactive"

def RewardStatus.OUT_OF_STOCK : String := "out_of_stock"

def RewardStatus.DISCONTINUED : String := "discontinued"

/-- A row of `loyalty_transactions` (`LoyaltyTransaction` in `app/models/loyalty.py`).
`user_id` is `Option` because the ERP sync path constructs rows without it. -/
structure LoyaltyTransaction where
  id : Nat
  user_id : Option Nat
  customer_id : Nat
  erp_sale_id : Option String
  points : Int
  transaction_type : String
  source : String
  description : String
  reference_id : Option String
  expires_at : Option Int
  is_active : Bool
  deriving DecidableEq, Repr

/-- A row of `customers` (`Customer` in `app/models/customer.py`); only the
fields the loyalty logic reads or writes are kept. -/
structure Customer where
  id : Nat
  user_id : Nat
  erp_id : Option String
  tier : CustomerTier
  total_points : Int
  lifetime_points : Int
  deriving DecidableEq, Repr

/-- A row of `customer_tier_history` (`CustomerTierHistory`). -/
structure CustomerTierHistory where
  customer_id : Nat
  previous_tier : CustomerTier
  new_tier : CustomerTier
  points_at_upgrade : Int
  reason : String
  deriving DecidableEq, Repr

/-- A row of `rewards` (`Reward` in `app/models/loyalty.py`); `stock_quantity`
is `-1` for unlimited stock, `valid_until` is an optional expiry instant. -/
structure Reward where
  id : Nat
  name : String
  points_required : Int
  status : String
  stock_quantity : Int
  max_per_customer : Int
  valid_until : Option Int
  deriving DecidableEq, Repr

/-- A row of `reward_redemptions` (`RewardRedemption`); the randomly generated
`redemption_code` is not modelled. -/
structure RewardRedemption where
  id : Nat
  transaction_id : Nat
  reward_id : Nat
  customer_id : Nat
  quantity : Int
  status : String
  deriving DecidableEq, Repr

/-- The relational state the loyalty, reward and ERP services act on.
`next_txn_id` / `next_redemption_id` model the autoincrement primary keys. -/
structure DB where
  customers : List Customer
  transactions : List LoyaltyTransaction
  tier_history : List CustomerTierHistory
  rewards : List Reward
  redemptions : List RewardRedemption
  next_txn_id : Nat
  next_redemption_id : Nat
  deriving DecidableEq, Repr

/-- `db.query(Customer).filter(Customer.id == customer_id).first()`. -/
def findCustomer (db : DB) (customer_id : Nat) : Option Customer :=
  db.customers.find? (fun c => c.id == customer_id)

/-- `db.query(Reward).filter(Reward.id == reward_id).first()`. -/
def findReward (db : DB) (reward_id : Nat) : Option Reward :=
  db.rewards.find? (fun r => r.id == reward_id)

/-- Write back a mutated customer object: every row whose `id` matches is
replaced (SQLAlchemy mutates the single identity-mapped object in place). -/
def replaceCustomer (l : List Customer) (customer_id : Nat) (c' : Customer) : List Customer :=
  l.map (fun c => if c.id == customer_id then c' else c)

/-- Current spendable balance of a customer, `0` if the customer is absent. -/
def totalOf (db : DB) (customer_id : Nat) : Int :=
  ((findCustomer db customer_id).map Customer.total_points).getD 0

/-- Lifetime points of a customer, `0` if the customer is absent. -/
def lifetimeOf (db : DB) (customer_id : Nat) : Int :=
  ((findCustomer db customer_id).map Customer.lifetime_points).getD 0

/-- Stored tier of a customer, Bronze if the customer is absent. -/
def tierOf (db : DB) (customer_id : Nat) : CustomerTier :=
  ((findCustomer db customer_id).map Customer.tier).getD CustomerTier.bronze

/-- Sum of the point deltas of a customer's `is_active` ledger rows. -/
def activeSum (db : DB) (customer_id : Nat) : Int :=
  ((db.transactions.filter (fun t => t.customer_id == customer_id && t.is_active)).map
    LoyaltyTransaction.points).sum

/-- `LoyaltyService._upgrade_customer_tier`: record a history row and move the
customer to `new_tier`. -/
def upgradeCustomerTier (c : Customer) (new_tier : CustomerTier) (reason : String) :
    Customer × CustomerTierHistory :=
  ({ c with tier := new_tier },
   { customer_id := c.id, previous_tier := c.tier, new_tier := new_tier,
     points_at_upgrade := c.total_points, reason := reason })

/-- The tier-upgrade chain inside `LoyaltyService.award_points` (lines 59-65):
a single `if/elif` step using thresholds 1000 / 5000 / 10000. -/
def awardTierCheck (c : Customer) : Customer × List CustomerTierHistory :=
  if c.tier = CustomerTier.bronze ∧ c.total_points ≥ 1000 then
    let p := upgradeCustomerTier c CustomerTier.silver "Automatic upgrade based on points"
    (p.1, [p.2])
  else if c.tier = CustomerTier.silver ∧ c.total_points ≥ 5000 then
    let p := upgradeCustomerTier c CustomerTier.gold "Automatic upgrade based on points"
    (p.1, [p.2])
  else if c.tier = CustomerTier.gold ∧ c.total_points ≥ 10000 then
    let p := upgradeCustomerTier c CustomerTier.platinum "Automatic upgrade based on points"
    (p.1, [p.2])
  else (c, [])

/-- `LoyaltyService.award_points`.  Returns the id of the new ledger row.
(Python's `user_id or customer.user_id` also falls back when `user_id` is the
falsy `0`; no claim observes a row's `user_id`, so `Option.getD` suffices.) -/
def awardPoints (db : DB) (customer_id : Nat) (points : Int) (source description : String)
    (reference_id : Option String) (user_id : Option Nat) (expires_at : Option Int) :
    Except String (DB × Nat) :=
  if points ≤ 0 then Except.error "Points must be positive"
  else
    match findCustomer db customer_id with
    | none => Except.error "Customer not found"
    | some customer =>
      let txn : LoyaltyTransaction :=
        { id := db.next_txn_id, user_id := some (user_id.getD customer.user_id),
          customer_id := customer_id, erp_sale_id := none, points := points,
          transaction_type := TransactionType.EARNED, source := source,
          description := description, reference_id := reference_id,
          expires_at := expires_at, is_active := true }
      let c1 := { customer with total_points := customer.total_points + points,
                                lifetime_points := customer.lifetime_points + points }
      let p := awardTierCheck c1
      Except.ok
        ({ db with customers := replaceCustomer db.customers customer_id p.1,
                   transactions := db.transactions ++ [txn],
                   tier_history := db.tier_history ++ p.2,
                   next_txn_id := db.next_txn_id + 1 },
         txn.id)

/-- `LoyaltyService.deduct_points`. -/
def deductPoints (db : DB) (customer_id : Nat) (points : Int) (source description : String)
    (reference_id : Option String) (user_id : Option Nat) : Except String (DB × Nat) :=
  if points ≤ 0 then Except.error "Points must be positive"
  else
    match findCustomer db customer_id with
    | none => Except.error "Customer not found"
    | some customer =>
      if customer.total_points < points then Except.error "Insufficient points"
      else
        let txn : LoyaltyTransaction :=
          { id := db.next_txn_id, user_id := some (user_id.getD customer.user_id),
            customer_id := customer_id, erp_sale_id := none, points := -points,
            transaction_type := TransactionType.REDEEMED, source := source,
            description := description, reference_id := reference_id,
            expires_at := none, is_active := true }
        let c1 := { customer with total_points := customer.total_points - points }
        Except.ok
          ({ db with customers := replaceCustomer db.customers customer_id c1,
                     transactions := db.transactions ++ [txn],
                     next_txn_id := db.next_txn_id + 1 },
           txn.id)

/-- `LoyaltyService.transfer_points`.  The amount, existence and balance
checks behave as written, and the sender's `TRANSFER`/`MANUAL` row is built
without incident; but building the receiver's row then reads
`TransactionSource.TRANSFER` (loyalty_service.py:142), which is not a member
of the `TransactionSource` enum, so every call that reaches this point raises
`AttributeError` before any `db.add` or balance mutation.  The function can
therefore never return rows or move points. -/
def transferPoints (db : DB) (from_customer_id to_customer_id : Nat) (points : Int)
    (description : String) (user_id : Option Nat) : Except String (DB × Nat × Nat) :=
  if points ≤ 0 then Except.error "Points must be positive"
  else
    match findCustomer db from_customer_id, findCustomer db to_customer_id with
    | some from_customer, some _ =>
      if from_customer.total_points < points then
        Except.error "Insufficient points for transfer"
      else
        Except.error "AttributeError: TRANSFER"
    | _, _ => Except.error "Customer not found"

/-- The row filter of `LoyaltyService.expire_points`: customer's active
positive rows whose `expires_at` has passed (`NULL` never passes). -/
def isExpiredRow (customer_id : Nat) (now : Int) (t : LoyaltyTransaction) : Bool :=
  t.customer_id == customer_id
    && (t.expires_at.map (fun e => decide (e ≤ now))).getD false
    && decide (0 < t.points)
    && t.is_active

/-- `LoyaltyService.expire_points`: mark each expired positive row inactive,
append a compensating negative `EXPIRED` row for it, and decrement the
customer's balance by the sum of the expired rows' points. -/
def expirePoints (db : DB) (customer_id : Nat) (now : Int) : DB :=
  let expired := db.transactions.filter (isExpiredRow customer_id now)
  let marked := db.transactions.map
    (fun t => if isExpiredRow customer_id now t then { t with is_active := false } else t)
  let adjustments := expired.enum.map (fun p =>
    { id := db.next_txn_id + p.1, user_id := p.2.user_id, customer_id := customer_id,
      erp_sale_id := none, points := -p.2.points,
      transaction_type := TransactionType.EXPIRED, source := TransactionSource.SYSTEM,
      description := "Points expired from transaction " ++ toString p.2.id,
      reference_id := some (toString p.2.id), expires_at := none,
      is_active := true : LoyaltyTransaction })
  let customers' :=
    if expired.isEmpty then db.customers
    else
      match findCustomer db customer_id with
      | none => db.customers
      | some customer =>
        replaceCustomer db.customers customer_id
          { customer with total_points :=
              customer.total_points - (expired.map LoyaltyTransaction.points).sum }
  { db with customers := customers',
            transactions := marked ++ adjustments,
            next_txn_id := db.next_txn_id + expired.length }

/-- The point-affecting loyalty-service operations named by the spec's
reconciliation and monotonicity properties. -/
inductive LoyaltyOp where
  | award (customer_id : Nat) (points : Int) (source description : String)
      (reference_id : Option String) (user_id : Option Nat) (expires_at : Option Int)
  | deduct (customer_id : Nat) (points : Int) (source description : String)
      (reference_id : Option String) (user_id : Option Nat)
  | expire (customer_id : Nat) (now : Int)

/-- Run one operation; a raised error leaves the state unchanged (the Python
methods raise before mutating the session). -/
def applyOp (db : DB) (op : LoyaltyOp) : DB :=
  match op with
  | LoyaltyOp.award cid p s d r u e =>
    match awardPoints db cid p s d r u e with
    | Except.ok q => q.1
    | Except.error _ => db
  | LoyaltyOp.deduct cid p s d r u =>
    match deductPoints db cid p s d r u with
    | Except.ok q => q.1
    | Except.error _ => db
  | LoyaltyOp.expire cid now => expirePoints db cid now

/-- Run a finite sequence of loyalty operations. -/
def applyOps (db : DB) (ops : List LoyaltyOp) : DB :=
  ops.foldl applyOp db

/-- Modelled from the spec: `LoyaltyService.adjust_points` is not present under
`src/` (the endpoint `app/api/v1/endpoints/loyalty.py` calls it and the tests
reference it, but the service file defines no such method).  Per spec §4.1,
`adjust_points(customer_id, points, description)` accepts a signed `points`
value, always succeeds when the customer exists (no balance floor is
enforced), and fails only when the customer is missing; the ledger row is an
`ADJUSTMENT` row with the signed delta. -/
def adjustPoints (db : DB) (customer_id : Nat) (points : Int) (description : String)
    (reference_id : Option String) : Except String (DB × Nat) :=
  match findCustomer db customer_id with
  | none => Except.error "Customer not found"
  | some customer =>
    let txn : LoyaltyTransaction :=
      { id := db.next_txn_id, user_id := some customer.user_id,
        customer_id := customer_id, erp_sale_id := none, points := points,
        transaction_type := TransactionType.ADJUSTMENT,
        source := TransactionSource.MANUAL, description := description,
        reference_id := reference_id, expires_at := none, is_active := true }
    let c1 := { customer with total_points := customer.total_points + points }
    Except.ok
      ({ db with customers := replaceCustomer db.customers customer_id c1,
                 transactions := db.transactions ++ [txn],
                 next_txn_id := db.next_txn_id + 1 },
       txn.id)

/-! ### Reward service (`app/services/reward_service.py`)

`redeem_reward` and `cancel_redemption` call the loyalty service to move
points, and both pass a `metadata=` keyword argument that neither
`LoyaltyService.deduct_points` nor `LoyaltyService.award_points` declares.
In Python, keyword binding fails before the callee runs: every call that
reaches that line raises `TypeError`, before any row is added, any balance
changes, or any stock is touched.  The embedding keeps each validation check
as written and models the doomed call as that error outcome, so neither
function can ever return `Except.ok`. -/

/-- Statuses counted as live by the stock and per-customer checks. -/
def isLiveRedemption (s : String) : Bool :=
  s == "completed" || s == "pending"

/-- Sum of quantities of live redemptions of a reward (the stock check in
`redeem_reward`, `func.sum(RewardRedemption.quantity)` with `or 0`). -/
def liveRedeemedQty (db : DB) (reward_id : Nat) : Int :=
  ((db.redemptions.filter
      (fun r => r.reward_id == reward_id && isLiveRedemption r.status)).map
    RewardRedemption.quantity).sum

/-- Sum of quantities of one customer's live redemptions of a reward (the
max-per-customer check in `redeem_reward`). -/
def customerRedeemedQty (db : DB) (reward_id customer_id : Nat) : Int :=
  ((db.redemptions.filter
      (fun r => r.reward_id == reward_id && r.customer_id == customer_id
        && isLiveRedemption r.status)).map
    RewardRedemption.quantity).sum

/-- Write back a mutated reward object. -/
def replaceReward (l : List Reward) (reward_id : Nat) (r' : Reward) : List Reward :=
  l.map (fun r => if r.id == reward_id then r' else r)

/-- `RewardService.redeem_reward`.  The customer/reward lookups and the
status, points, stock and max-per-customer validations behave exactly as
written (reward_service.py:112-151); past them, the call
`deduct_points(..., metadata={...})` (lines 158-165) passes a keyword that
`LoyaltyService.deduct_points` does not declare, raising `TypeError` before
any mutation — the stock decrement and the `RewardRedemption` insert below
that call are dead code, so no redemption ever succeeds. -/
def redeemReward (db : DB) (customer_id reward_id : Nat) (quantity : Int) :
    Except String (DB × Nat) :=
  match findCustomer db customer_id with
  | none => Except.error "Customer not found"
  | some customer =>
    match findReward db reward_id with
    | none => Except.error "Reward not found"
    | some reward =>
      if reward.status ≠ RewardStatus.ACTIVE then Except.error "Reward is not available"
      else if customer.total_points < reward.points_required * quantity then
        Except.error "Insufficient points"
      else if reward.stock_quantity ≠ -1
          ∧ liveRedeemedQty db reward_id + quantity > reward.stock_quantity then
        Except.error "Insufficient stock available"
      else if customerRedeemedQty db reward_id customer_id + quantity
          > reward.max_per_customer then
        Except.error "Maximum redemptions per customer exceeded"
      else
        Except.error
          "TypeError: deduct_points got an unexpected keyword argument metadata"

/-- `RewardService.cancel_redemption`.  The redemption lookup, the status
guard and the transaction lookup behave exactly as written
(reward_service.py:276-293); past them, the refund call
`award_points(..., metadata={...})` (lines 296-303) passes a keyword that
`LoyaltyService.award_points` does not declare, raising `TypeError` before
any mutation — the status flip to `"cancelled"` and the stock restore below
that call are dead code, so no cancellation ever succeeds. -/
def cancelRedemption (db : DB) (redemption_id : Nat) : Except String (DB × Nat) :=
  match db.redemptions.find? (fun r => r.id == redemption_id) with
  | none => Except.error "Redemption not found"
  | some redemption =>
    if ¬ (redemption.status = "pending" ∨ redemption.status = "completed") then
      Except.error "Redemption cannot be cancelled"
    else
      match db.transactions.find? (fun t => t.id == redemption.transaction_id) with
      | none => Except.error "Associated transaction not found"
      | some _ =>
        Except.error
          "TypeError: award_points got an unexpected keyword argument metadata"

/-! ### ERP synchronization adapter (`app/services/erp_service.py`) -/

/-- A customer/sales row pulled from the ERP database (the fields
`_transform_sale_data` reads). -/
structure ErpSale where
  id : String
  customer_id : String
  total_amount : ℚ
  invoice_number : String
  deriving DecidableEq, Repr

/-- The dictionary `_transform_sale_data` produces. -/
structure SaleTransactionData where
  erp_sale_id : String
  customer_erp_id : String
  sale_amount : ℚ
  points_earned : Int
  transaction_type : String
  source : String
  description : String
  deriving DecidableEq, Repr

/-- Python `int()`: truncation toward zero. -/
def pyInt (q : ℚ) : Int :=
  if q < 0 then -⌊-q⌋ else ⌊q⌋

/-- `_transform_sale_data`: points earned are `int(sale_amount * 0.01)`
(1 point per 100 currency units; Python-float rounding of `0.01` is
abstracted to the exact rational). -/
def transformSaleData (s : ErpSale) : SaleTransactionData :=
  { erp_sale_id := s.id, customer_erp_id := s.customer_id,
    sale_amount := s.total_amount,
    points_earned := pyInt (s.total_amount * (1 / 100)),
    transaction_type := TransactionType.EARNED,
    source := TransactionSource.PURCHASE,
    description := "Points earned from sale " ++ s.invoice_number }

/-- The tier-threshold table of `ErpService._check_tier_upgrade` in its
Python-dict insertion order. -/
def erpTierThresholds : List (CustomerTier × Int) :=
  [(CustomerTier.bronze, 0), (CustomerTier.silver, 200),
   (CustomerTier.gold, 500), (CustomerTier.platinum, 1000)]

/-- `ErpService._check_tier_upgrade`: take the first tier in table order whose
threshold exceeds the current tier's threshold and is covered by
`total_points`, and upgrade to it (recording a history row). -/
def checkTierUpgrade (c : Customer) : Customer × List CustomerTierHistory :=
  let current := ((erpTierThresholds.lookup c.tier).getD 0)
  let next := erpTierThresholds.find?
    (fun p => decide (p.2 > current) && decide (c.total_points ≥ p.2))
  match next with
  | some p =>
    if p.1 ≠ c.tier then
      ({ c with tier := p.1 },
       [{ customer_id := c.id, previous_tier := c.tier, new_tier := p.1,
          points_at_upgrade := c.total_points, reason := "points_threshold" }])
    else (c, [])
  | none => (c, [])

/-- `ErpService._create_loyalty_transaction`: find the customer by ERP id,
skip if a ledger row already carries this ERP sale id, otherwise insert the
new row and update the customer's points and tier.  The inserted row's
`erp_sale_id` column is left at its default `NULL` — the Python constructor
call does not pass it. -/
def createLoyaltyTransaction (db : DB) (td : SaleTransactionData) : DB :=
  match db.customers.find? (fun c => c.erp_id == some td.customer_erp_id) with
  | none => db
  | some customer =>
    if (db.transactions.find? (fun t => t.erp_sale_id == some td.erp_sale_id)).isSome then
      db
    else
      let txn : LoyaltyTransaction :=
        { id := db.next_txn_id, user_id := none, customer_id := customer.id,
          erp_sale_id := none, points := td.points_earned,
          transaction_type := td.transaction_type, source := td.source,
          description := td.description, reference_id := none,
          expires_at := none, is_active := true }
      let c1 := { customer with
        total_points := customer.total_points + td.points_earned,
        lifetime_points := customer.lifetime_points + td.points_earned }
      let p := checkTierUpgrade c1
      { db with customers := replaceCustomer db.customers customer.id p.1,
                transactions := db.transactions ++ [txn],
                tier_history := db.tier_history ++ p.2,
                next_txn_id := db.next_txn_id + 1 }

/-! ### Affiliate service (`app/services/affiliate_service.py`) -/

/-- A row of `affiliates` (`Affiliate` in `app/models/affiliate.py`); money
columns are `DECIMAL`, modelled as `ℚ`. -/
structure Affiliate where
  id : Nat
  user_id : Nat
  commission_rate : ℚ
  total_earnings : ℚ
  unpaid_balance : ℚ
  deriving DecidableEq, Repr

/-- A row of `customer_referrals` (`CustomerReferral`). -/
structure CustomerReferral where
  id : Nat
  affiliate_id : Nat
  customer_id : Nat
  conversion_value : ℚ
  commission_amount : ℚ
  status : String
  deriving DecidableEq, Repr

/-- String values of the `CommissionStatus` enum. -/
def CommissionStatus.PENDING : String := "pending"

/-- A row of `affiliate_commissions` (`AffiliateCommission`). -/
structure AffiliateCommission where
  id : Nat
  affiliate_id : Nat
  user_id : Nat
  referral_id : Nat
  commission_amount : ℚ
  commission_rate : ℚ
  status : String
  deriving DecidableEq, Repr

/-- The relational state the affiliate service acts on. -/
structure AffDB where
  affiliates : List Affiliate
  referrals : List CustomerReferral
  commissions : List AffiliateCommission
  next_commission_id : Nat
  deriving DecidableEq, Repr

/-- `AffiliateService.calculate_commission`.  Returns the id of the new
commission row.  The commission amount is `purchase_amount * rate / 100` with
`rate` the explicit argument when given, else the affiliate's stored
`commission_rate`; no rounding is applied in the service code. -/
def calculateCommission (s : AffDB) (referral_id : Nat) (purchase_amount : ℚ)
    (commission_rate : Option ℚ) : Except String (AffDB × Nat) :=
  match s.referrals.find? (fun r => r.id == referral_id) with
  | none => Except.error "Referral not found"
  | some referral =>
    match s.affiliates.find? (fun a => a.id == referral.affiliate_id) with
    | none => Except.error "Affiliate not found"
    | some affiliate =>
      let rate := commission_rate.getD affiliate.commission_rate
      let amount := purchase_amount * rate / 100
      let referrals' := s.referrals.map (fun r =>
        if r.id == referral_id then
          { r with conversion_value := purchase_amount, commission_amount := amount }
        else r)
      let commission : AffiliateCommission :=
        { id := s.next_commission_id, affiliate_id := affiliate.id,
          user_id := affiliate.user_id, referral_id := referral_id,
          commission_amount := amount, commission_rate := rate,
          status := CommissionStatus.PENDING }
      let affiliates' := s.affiliates.map (fun a =>
        if a.id == affiliate.id then
          { a with total_earnings := a.total_earnings + amount,
                   unpaid_balance := a.unpaid_balance + amount }
        else a)
      Except.ok
        ({ s with affiliates := affiliates', referrals := referrals',
                  commissions := s.commissions ++ [commission],
                  next_commission_id := s.next_commission_id + 1 },
         commission.id)

/-- The claim's reading of the commission formula (spec §8: `round(purchase
* rate / 100, 2)`), for comparison with `calculateCommission`: round to two
decimal places, half up.  (Python's `round` uses banker's rounding; the two
differ only at exact half-cent ties, which no claim exercises.) -/
def specRound2 (q : ℚ) : ℚ :=
  (⌊q * 100 + 1 / 2⌋ : ℚ) / 100

/-- Commission amount of the commission row with id `k`, `0` if absent. -/
def commissionAmountOf (s : AffDB) (k : Nat) : ℚ :=
  ((s.commissions.find? (fun c => c.id == k)).map
    AffiliateCommission.commission_amount).getD 0

/-! ### Concrete states used as test inputs -/

/-- One fresh Bronze customer with no points and an empty ledger. -/
def sampleDB : DB :=
  { customers := [{ id := 1, user_id := 7, erp_id := none,
                    tier := CustomerTier.bronze, total_points := 0, lifetime_points := 0 }],
    transactions := [], tier_history := [], rewards := [], redemptions := [],
    next_txn_id := 1, next_redemption_id := 1 }

/-- One fresh Bronze customer linked to ERP customer `E1`. -/
def erpDB : DB :=
  { customers := [{ id := 1, user_id := 7, erp_id := some "E1",
                    tier := CustomerTier.bronze, total_points := 0, lifetime_points := 0 }],
    transactions := [], tier_history := [], rewards := [], redemptions := [],
    next_txn_id := 1, next_redemption_id := 1 }

/-- An ERP sale of 5000 currency units by ERP customer `E1`. -/
def sampleSale : ErpSale :=
  { id := "S1", customer_id := "E1", total_amount := 5000, invoice_number := "INV1" }

/-- A customer with 100 points and an active, already-expired reward
(`valid_until` in the past) costing 10 points with exactly 1 unit in stock. -/
def rewardDB : DB :=
  { customers := [{ id := 1, user_id := 7, erp_id := none,
                    tier := CustomerTier.bronze, total_points := 100, lifetime_points := 100 }],
    transactions := [], tier_history := [],
    rewards := [{ id := 5, name := "mug", points_required := 10,
                  status := RewardStatus.ACTIVE, stock_quantity := 1,
                  max_per_customer := 5, valid_until := some (-50) }],
    redemptions := [], next_txn_id := 1, next_redemption_id := 1 }

/-- Two customers holding 100 and 5 points. -/
def transferDB : DB :=
  { customers := [{ id := 1, user_id := 7, erp_id := none,
                    tier := CustomerTier.bronze, total_points := 100, lifetime_points := 100 },
                  { id := 2, user_id := 8, erp_id := none,
                    tier := CustomerTier.bronze, total_points := 5, lifetime_points := 5 }],
    transactions := [], tier_history := [], rewards := [], redemptions := [],
    next_txn_id := 1, next_redemption_id := 1 }

/-- One affiliate with a 5% stored commission rate and one converted referral. -/
def affDB : AffDB :=
  { affiliates := [{ id := 1, user_id := 9, commission_rate := 5,
                     total_earnings := 0, unpaid_balance := 0 }],
    referrals := [{ id := 1, affiliate_id := 1, customer_id := 2,
                    conversion_value := 0, commission_amount := 0, status := "converted" }],
    commissions := [], next_commission_id := 1 }

/-- The affiliate state `c5_counterexample` expects after the 10.01 purchase
at rate 3%. -/
def affDBafter : AffDB :=
  { affiliates := [{ id := 1, user_id := 9, commission_rate := 5,
                     total_earnings := 3003 / 10000, unpaid_balance := 3003 / 10000 }],
    referrals := [{ id := 1, affiliate_id := 1, customer_id := 2,
                    conversion_value := 1001 / 100, commission_amount := 3003 / 10000,
                    status := "converted" }],
    commissions := [{ id := 1, affiliate_id := 1, user_id := 9, referral_id := 1,
                      commission_amount := 3003 / 10000, commission_rate := 3,
                      status := CommissionStatus.PENDING }],
    next_commission_id := 2 }

/-- The tier the tier-progression claim asserts: the highest tier whose spec
threshold (Bronze 0, Silver 200, Gold 500, Platinum 1000) is ≤ the balance.
Modelled from the spec's words, for comparison with the code. -/
def specHighestTier (points : Int) : CustomerTier :=
  if 1000 ≤ points then CustomerTier.platinum
  else if 500 ≤ points then CustomerTier.gold
  else if 200 ≤ points then CustomerTier.silver
  else CustomerTier.bronze

/-- Whether a service call succeeded. -/
def exOk {α : Type} (e : Except String α) : Bool :=
  match e with
  | Except.ok _ => true
  | Except.error _ => false

/-- State after `redeem_reward`; a raised error leaves the state unchanged
(every check precedes the first mutation). -/
def runRedeem (db : DB) (customer_id reward_id : Nat) (quantity : Int) : DB :=
  match redeemReward db customer_id reward_id quantity with
  | Except.ok q => q.1
  | Except.error _ => db

/-- State after `cancel_redemption`; a raised error leaves the state
unchanged (every check precedes the first mutation). -/
def runCancel (db : DB) (redemption_id : Nat) : DB :=
  match cancelRedemption db redemption_id with
  | Except.ok q => q.1
  | Except.error _ => db

/-- State after `transfer_points`; a raised error leaves the state unchanged. -/
def runTransfer (db : DB) (from_customer_id to_customer_id : Nat) (points : Int)
    (description : String) (user_id : Option Nat) : DB :=
  match transferPoints db from_customer_id to_customer_id points description user_id with
  | Except.ok q => q.1
  | Except.error _ => db

/-! ### Helper lemmas about lookups in updated tables -/

/-- `find?` commutes with a map that does not change the predicate's value. -/
theorem find?_map_pres {α : Type} (g : α → α) (p : α → Bool) (hg : ∀ x, p (g x) = p x) :
    ∀ l : List α, (l.map g).find? p = (l.find? p).map g := by
  intro l
  induction l with
  | nil => rfl
  | cons a t ih =>
    by_cases h : p a = true
    · have h' : p (g a) = true := by rw [hg]; exact h
      rw [List.map_cons, List.find?_cons_of_pos _ h', List.find?_cons_of_pos _ h,
        Option.map_some']
    · have h' : ¬ p (g a) = true := by rw [hg]; exact h
      rw [List.map_cons, List.find?_cons_of_neg _ h', List.find?_cons_of_neg _ h, ih]

/-- Looking an id up after writing back a row with that same id: the lookup
sees the written row exactly when the original lookup found one. -/
theorem find?_update_by_id {α : Type} (idf : α → Nat) (tid q : Nat) (x' : α)
    (hid : idf x' = tid) (l : List α) :
    (l.map (fun x => if idf x == tid then x' else x)).find? (fun x => idf x == q) =
      (l.find? (fun x => idf x == q)).map (fun x => if idf x == tid then x' else x) := by
  apply find?_map_pres
  intro x
  by_cases h : (idf x == tid) = true
  · have hx : idf x = tid := by simpa using h
    simp [h, hid, hx]
  · simp [h]

/-- Updating one id leaves lookups of other ids unchanged. -/
theorem find?_update_other {α : Type} (idf : α → Nat) (tid q : Nat) (x' : α)
    (hid : idf x' = tid) (hq : q ≠ tid) (l : List α) :
    (l.map (fun x => if idf x == tid then x' else x)).find? (fun x => idf x == q) =
      l.find? (fun x => idf x == q) := by
  rw [find?_update_by_id idf tid q x' hid l]
  cases hfound : l.find? (fun x => idf x == q) with
  | none => rfl
  | some x =>
    have hx : idf x = q := by simpa using List.find?_some hfound
    have h2 : ¬ ((idf x == tid) = true) := by simp [hx]; exact hq
    rw [Option.map_some', if_neg h2]

/-- Updating the id a lookup targets replaces the found row. -/
theorem find?_update_self {α : Type} (idf : α → Nat) (tid : Nat) (x x' : α)
    (hid : idf x' = tid) (l : List α)
    (hfound : l.find? (fun y => idf y == tid) = some x) :
    (l.map (fun y => if idf y == tid then x' else y)).find? (fun y => idf y == tid) =
      some x' := by
  rw [find?_update_by_id idf tid tid x' hid l, hfound]
  have hx : idf x = tid := by simpa using List.find?_some hfound
  simp [hx]

/-- The tier-upgrade step keeps the customer's id. -/
theorem awardTierCheck_id (c : Customer) : (awardTierCheck c).1.id = c.id := by
  simp only [awardTierCheck, upgradeCustomerTier]
  split_ifs <;> rfl

/-- The tier-upgrade step keeps `lifetime_points`. -/
theorem awardTierCheck_lifetime (c : Customer) :
    (awardTierCheck c).1.lifetime_points = c.lifetime_points := by
  simp only [awardTierCheck, upgradeCustomerTier]
  split_ifs <;> rfl

/-- The tier-upgrade step keeps `total_points`. -/
theorem awardTierCheck_total (c : Customer) :
    (awardTierCheck c).1.total_points = c.total_points := by
  simp only [awardTierCheck, upgradeCustomerTier]
  split_ifs <;> rfl

/-- Explicit shape of a successful `award_points` call. -/
theorem awardPoints_ok (db : DB) (customer_id : Nat) (points : Int)
    (src desc : String) (ref : Option String) (uid : Option Nat) (exp : Option Int)
    (c : Customer) (hpos : 0 < points) (hc : findCustomer db customer_id = some c) :
    awardPoints db customer_id points src desc ref uid exp = Except.ok
      ({ db with
          customers := replaceCustomer db.customers customer_id
            (awardTierCheck
              { c with total_points := c.total_points + points,
                       lifetime_points := c.lifetime_points + points }).1,
          transactions := db.transactions ++
            [{ id := db.next_txn_id, user_id := some (uid.getD c.user_id),
               customer_id := customer_id, erp_sale_id := none, points := points,
               transaction_type := TransactionType.EARNED, source := src,
               description := desc, reference_id := ref, expires_at := exp,
               is_active := true }],
          tier_history := db.tier_history ++
            (awardTierCheck
              { c with total_points := c.total_points + points,
                       lifetime_points := c.lifetime_points + points }).2,
          next_txn_id := db.next_txn_id + 1 }, db.next_txn_id) := by
  simp only [awardPoints, hc, if_neg (not_le.mpr hpos)]

/-- Explicit shape of a successful `deduct_points` call. -/
theorem deductPoints_ok (db : DB) (customer_id : Nat) (points : Int)
    (src desc : String) (ref : Option String) (uid : Option Nat) (c : Customer)
    (hpos : 0 < points) (hc : findCustomer db customer_id = some c)
    (hge : points ≤ c.total_points) :
    deductPoints db customer_id points src desc ref uid = Except.ok
      ({ db with
          customers := replaceCustomer db.customers customer_id
            { c with total_points := c.total_points - points },
          transactions := db.transactions ++
            [{ id := db.next_txn_id, user_id := some (uid.getD c.user_id),
               customer_id := customer_id, erp_sale_id := none, points := -points,
               transaction_type := TransactionType.REDEEMED, source := src,
               description := desc, reference_id := ref, expires_at := none,
               is_active := true }],
          next_txn_id := db.next_txn_id + 1 }, db.next_txn_id) := by
  simp only [deductPoints, hc, if_neg (not_le.mpr hpos), if_neg (not_lt.mpr hge)]

/-- The customers table after `expire_points`: unchanged, or the affected
customer's balance decremented by the expired sum. -/
theorem expirePoints_customers (db : DB) (customer_id : Nat) (now : Int) :
    (expirePoints db customer_id now).customers = db.customers ∨
      ∃ c, findCustomer db customer_id = some c ∧
        (expirePoints db customer_id now).customers = replaceCustomer db.customers customer_id
          { c with total_points := c.total_points -
              ((db.transactions.filter (isExpiredRow customer_id now)).map
                LoyaltyTransaction.points).sum } := by
  by_cases he : (db.transactions.filter (isExpiredRow customer_id now)).isEmpty
  · left
    simp [expirePoints, he]
  · cases hfc : findCustomer db customer_id with
    | none => left; simp [expirePoints, he, hfc]
    | some c => right; exact ⟨c, rfl, by simp [expirePoints, he, hfc]⟩

/-- Replacing one customer row with one of equal `lifetime_points` preserves
every customer's looked-up `lifetime_points`. -/
theorem lifetimeOf_replace_eq (db db' : DB) (customer_id : Nat) (c c' : Customer)
    (hc : findCustomer db customer_id = some c) (hid : c'.id = c.id)
    (hl : c'.lifetime_points = c.lifetime_points)
    (hcust : db'.customers = replaceCustomer db.customers customer_id c') :
    ∀ q, lifetimeOf db' q = lifetimeOf db q := by
  intro q
  have hc' : db.customers.find? (fun x => x.id == customer_id) = some c := hc
  have hcid : c.id = customer_id := by simpa using List.find?_some hc'
  unfold lifetimeOf findCustomer
  rw [hcust]
  unfold replaceCustomer
  by_cases hq : q = customer_id
  · subst hq
    rw [find?_update_self Customer.id q c c' (hid.trans hcid) db.customers hc', hc']
    simp [hl]
  · rw [find?_update_other Customer.id customer_id q c' (hid.trans hcid) hq db.customers]

/-- Replacing one customer row with `lifetime_points` not smaller preserves
the lower bound on every customer's looked-up `lifetime_points`. -/
theorem lifetimeOf_replace_le (db db' : DB) (customer_id : Nat) (c c' : Customer)
    (hc : findCustomer db customer_id = some c) (hid : c'.id = c.id)
    (hl : c.lifetime_points ≤ c'.lifetime_points)
    (hcust : db'.customers = replaceCustomer db.customers customer_id c') :
    ∀ q, lifetimeOf db q ≤ lifetimeOf db' q := by
  intro q
  have hc' : db.customers.find? (fun x => x.id == customer_id) = some c := hc
  have hcid : c.id = customer_id := by simpa using List.find?_some hc'
  unfold lifetimeOf findCustomer
  rw [hcust]
  unfold replaceCustomer
  by_cases hq : q = customer_id
  · subst hq
    rw [find?_update_self Customer.id q c c' (hid.trans hcid) db.customers hc', hc']
    simpa using hl
  · rw [find?_update_other Customer.id customer_id q c' (hid.trans hcid) hq db.customers]

/-- One loyalty operation never decreases any customer's `lifetime_points`. -/
theorem applyOp_lifetime_le (db : DB) (op : LoyaltyOp) (q : Nat) :
    lifetimeOf db q ≤ lifetimeOf (applyOp db op) q := by
  cases op with
  | award cid points src desc ref uid exp =>
    by_cases hpos : 0 < points
    · cases hc : findCustomer db cid with
      | none =>
        simp [applyOp, awardPoints, hc, if_neg (not_le.mpr hpos)]
      | some c =>
        have hok := awardPoints_ok db cid points src desc ref uid exp c hpos hc
        simp only [applyOp, hok]
        refine lifetimeOf_replace_le db _ cid c _ hc ?_ ?_ rfl q
        · rw [awardTierCheck_id]
        · rw [awardTierCheck_lifetime]
          simpa using le_of_lt hpos
    · simp [applyOp, awardPoints, if_pos (not_lt.mp hpos)]
  | deduct cid points src desc ref uid =>
    by_cases hpos : 0 < points
    · cases hc : findCustomer db cid with
      | none =>
        simp [applyOp, deductPoints, hc, if_neg (not_le.mpr hpos)]
      | some c =>
        by_cases hge : points ≤ c.total_points
        · have hok := deductPoints_ok db cid points src desc ref uid c hpos hc hge
          simp only [applyOp, hok]
          exact le_of_eq
            (lifetimeOf_replace_eq db _ cid c
              { c with total_points := c.total_points - points } hc rfl rfl rfl q).symm
        · simp [applyOp, deductPoints, hc, if_neg (not_le.mpr hpos),
            if_pos (not_le.mp hge)]
    · simp [applyOp, deductPoints, if_pos (not_lt.mp hpos)]
  | expire cid now =>
    rcases expirePoints_customers db cid now with h | ⟨c, hc, h⟩
    · apply le_of_eq
      unfold lifetimeOf findCustomer
      simp only [applyOp, h]
    · exact le_of_eq
        (lifetimeOf_replace_eq db _ cid c
          { c with total_points := c.total_points -
              ((db.transactions.filter (isExpiredRow cid now)).map
                LoyaltyTransaction.points).sum }
          hc rfl rfl h q).symm

/-- `redeem_reward` can never succeed: every branch of the embedding is an
error, because the call into `deduct_points` passes the undeclared
`metadata=` keyword. -/
theorem redeemReward_isError (db : DB) (cid rid : Nat) (qty : Int) :
    exOk (redeemReward db cid rid qty) = false := by
  cases hc : findCustomer db cid with
  | none => simp [redeemReward, hc, exOk]
  | some c =>
    cases hr : findReward db rid with
    | none => simp [redeemReward, hc, hr, exOk]
    | some r =>
      simp only [redeemReward, hc, hr]
      split_ifs <;> rfl

/-- `cancel_redemption` can never succeed: every branch of the embedding is
an error, because the call into `award_points` passes the undeclared
`metadata=` keyword. -/
theorem cancelRedemption_isError (db : DB) (redemption_id : Nat) :
    exOk (cancelRedemption db redemption_id) = false := by
  cases hred : db.redemptions.find? (fun r => r.id == redemption_id) with
  | none => simp [cancelRedemption, hred, exOk]
  | some red =>
    cases htx : db.transactions.find? (fun t => t.id == red.transaction_id) with
    | none =>
      simp only [cancelRedemption, hred, htx]
      split_ifs <;> rfl
    | some txn =>
      simp only [cancelRedemption, hred, htx]
      split_ifs <;> rfl

/-- `transfer_points` can never succeed: every branch of the embedding is an
error, because building the receiver row reads the missing enum member
`TransactionSource.TRANSFER`. -/
theorem transferPoints_isError (db : DB) (f t : Nat) (p : Int) (d : String)
    (u : Option Nat) : exOk (transferPoints db f t p d u) = false := by
  by_cases hp : p ≤ 0
  · simp [transferPoints, if_pos hp, exOk]
  · cases hf : findCustomer db f with
    | none => simp [transferPoints, if_neg hp, hf, exOk]
    | some fc =>
      cases ht : findCustomer db t with
      | none => simp [transferPoints, if_neg hp, hf, ht, exOk]
      | some tc =>
        simp only [transferPoints, if_neg hp, hf, ht]
        split_ifs <;> rfl

/-- Since `redeem_reward` always raises before mutating, it never changes
the state. -/
theorem runRedeem_id (db : DB) (cid rid : Nat) (qty : Int) :
    runRedeem db cid rid qty = db := by
  have h := redeemReward_isError db cid rid qty
  unfold runRedeem
  cases hr : redeemReward db cid rid qty with
  | ok q => rw [hr] at h; simp [exOk] at h
  | error e => rfl

/-- Since `cancel_redemption` always raises before mutating, it never
changes the state. -/
theorem runCancel_id (db : DB) (redemption_id : Nat) :
    runCancel db redemption_id = db := by
  have h := cancelRedemption_isError db redemption_id
  unfold runCancel
  cases hr : cancelRedemption db redemption_id with
  | ok q => rw [hr] at h; simp [exOk] at h
  | error e => rfl

/-- Since `transfer_points` always raises before mutating, it never changes
the state. -/
theorem runTransfer_id (db : DB) (f t : Nat) (p : Int) (d : String) (u : Option Nat) :
    runTransfer db f t p d u = db := by
  have h := transferPoints_isError db f t p d u
  unfold runTransfer
  cases hr : transferPoints db f t p d u with
  | ok q => rw [hr] at h; simp [exOk] at h
  | error e => rfl

/-! ### Theorems for the claims -/

/-- C1.  The code contradicts the claimed tier algorithm: awarding 250 points
to a fresh Bronze customer leaves the stored tier Bronze with no
`CustomerTierHistory` row (`award_points` upgrades one step at thresholds
1000/5000/10000), although the claimed threshold table gives Silver; and the
ERP re-check at 600 points yields Silver, not the claimed highest tier Gold
(it picks the first tier above the current one, not the highest). -/
theorem c1_award_250_stays_bronze :
    (∃ db', awardPoints sampleDB 1 250 TransactionSource.PURCHASE "Points awarded"
        none none none = Except.ok (db', 1)
      ∧ totalOf db' 1 = 250 ∧ tierOf db' 1 = CustomerTier.bronze ∧ db'.tier_history = [])
    ∧ specHighestTier 250 = CustomerTier.silver
    ∧ (checkTierUpgrade
        { id := 1, user_id := 7, erp_id := none, tier := CustomerTier.bronze,
          total_points := 600, lifetime_points := 600 }).1.tier = CustomerTier.silver
    ∧ specHighestTier 600 = CustomerTier.gold := by
  exact ⟨⟨_, rfl, rfl, rfl, rfl⟩, rfl, rfl, rfl⟩

/-- C2.  The reconciliation invariant `total_points = sum of active ledger
deltas` is broken by `expire_points`: it marks the expired earned row
inactive *and* inserts a compensating negative `EXPIRED` row while deducting
the balance only once, so after awarding 100 expiring points and expiring
them the balance is 0 but the active ledger sums to -100. -/
theorem c2_expire_breaks_reconciliation :
    totalOf (applyOps sampleDB
      [LoyaltyOp.award 1 100 TransactionSource.PURCHASE "Points awarded" none none (some 10),
       LoyaltyOp.expire 1 20]) 1 = 0
    ∧ activeSum (applyOps sampleDB
      [LoyaltyOp.award 1 100 TransactionSource.PURCHASE "Points awarded" none none (some 10),
       LoyaltyOp.expire 1 20]) 1 = -100 := by
  exact ⟨rfl, rfl⟩

/-- C3.  For an existing customer and positive `points`, `deduct_points`
fails (with "Insufficient points", leaving the state unchanged) exactly when
`total_points < points`; otherwise it appends exactly one `REDEEMED` ledger
row with delta `-points` and decrements `total_points` by `points`, leaving
`lifetime_points` unchanged. -/
theorem c3_deduct_points_spec (db : DB) (customer_id : Nat) (points : Int)
    (src desc : String) (ref : Option String) (uid : Option Nat) (c : Customer)
    (hpos : 0 < points) (hc : findCustomer db customer_id = some c) :
    (exOk (deductPoints db customer_id points src desc ref uid) = false
      ↔ c.total_points < points)
    ∧ (c.total_points < points →
        deductPoints db customer_id points src desc ref uid
          = Except.error "Insufficient points"
        ∧ applyOp db (LoyaltyOp.deduct customer_id points src desc ref uid) = db)
    ∧ (points ≤ c.total_points →
        deductPoints db customer_id points src desc ref uid = Except.ok
          ({ db with
              customers := replaceCustomer db.customers customer_id
                { c with total_points := c.total_points - points },
              transactions := db.transactions ++
                [{ id := db.next_txn_id, user_id := some (uid.getD c.user_id),
                   customer_id := customer_id, erp_sale_id := none, points := -points,
                   transaction_type := TransactionType.REDEEMED, source := src,
                   description := desc, reference_id := ref, expires_at := none,
                   is_active := true }],
              next_txn_id := db.next_txn_id + 1 }, db.next_txn_id)
        ∧ totalOf (applyOp db (LoyaltyOp.deduct customer_id points src desc ref uid))
            customer_id = c.total_points - points
        ∧ lifetimeOf (applyOp db (LoyaltyOp.deduct customer_id points src desc ref uid))
            customer_id = c.lifetime_points) := by
  have hnp : ¬ points ≤ 0 := not_le.mpr hpos
  have hcid : c.id = customer_id := by
    have hc' : db.customers.find? (fun x => x.id == customer_id) = some c := hc
    simpa using List.find?_some hc'
  by_cases hlt : c.total_points < points
  · have herr : deductPoints db customer_id points src desc ref uid
        = Except.error "Insufficient points" := by
      simp only [deductPoints, hc, if_neg hnp, if_pos hlt]
    refine ⟨by simp [herr, exOk, hlt], fun _ => ⟨herr, by simp [applyOp, herr]⟩,
      fun hge => absurd hlt (not_lt.mpr hge)⟩
  · have hok : deductPoints db customer_id points src desc ref uid = Except.ok
        ({ db with
            customers := replaceCustomer db.customers customer_id
              { c with total_points := c.total_points - points },
            transactions := db.transactions ++
              [{ id := db.next_txn_id, user_id := some (uid.getD c.user_id),
                 customer_id := customer_id, erp_sale_id := none, points := -points,
                 transaction_type := TransactionType.REDEEMED, source := src,
                 description := desc, reference_id := ref, expires_at := none,
                 is_active := true }],
            next_txn_id := db.next_txn_id + 1 }, db.next_txn_id) := by
      simp only [deductPoints, hc, if_neg hnp, if_neg hlt]
    have hfind : findCustomer (applyOp db (LoyaltyOp.deduct customer_id points src desc ref uid))
        customer_id = some { c with total_points := c.total_points - points } := by
      simp only [applyOp, hok, findCustomer, replaceCustomer]
      exact find?_update_self Customer.id customer_id c
        { c with total_points := c.total_points - points } hcid db.customers hc
    refine ⟨by simp [hok, exOk, hlt], fun h => absurd h hlt, fun _ => ⟨hok, ?_, ?_⟩⟩
    · simp [totalOf, hfind]
    · simp [lifetimeOf, hfind]

/-- C3, witness: a customer holding 100 points asked to deduct 150 — the call
fails exactly because 100 < 150. -/
theorem c3_witness :
    exOk (deductPoints rewardDB 1 150 TransactionSource.MANUAL "Points deducted" none none)
      = false ↔ (100 : Int) < 150 :=
  (c3_deduct_points_spec rewardDB 1 150 TransactionSource.MANUAL "Points deducted" none none
    { id := 1, user_id := 7, erp_id := none, tier := CustomerTier.bronze,
      total_points := 100, lifetime_points := 100 } (by decide) rfl).1

/-- C4.  ERP sale sync is not idempotent: `_create_loyalty_transaction`
checks for an existing row tagged with the ERP sale id, but the row it
inserts never receives that tag (`erp_sale_id` stays `NULL`), so re-running
the sync for the same sale inserts a second ledger row and doubles the
customer's points. -/
theorem c4_sale_sync_not_idempotent :
    (createLoyaltyTransaction erpDB (transformSaleData sampleSale)).transactions.length = 1
    ∧ totalOf (createLoyaltyTransaction erpDB (transformSaleData sampleSale)) 1 = 50
    ∧ (∀ t ∈ (createLoyaltyTransaction erpDB (transformSaleData sampleSale)).transactions,
        t.erp_sale_id = none)
    ∧ (createLoyaltyTransaction (createLoyaltyTransaction erpDB (transformSaleData sampleSale))
        (transformSaleData sampleSale)).transactions.length = 2
    ∧ totalOf (createLoyaltyTransaction
        (createLoyaltyTransaction erpDB (transformSaleData sampleSale))
        (transformSaleData sampleSale)) 1 = 100
    ∧ lifetimeOf (createLoyaltyTransaction
        (createLoyaltyTransaction erpDB (transformSaleData sampleSale))
        (transformSaleData sampleSale)) 1 = 100 := by
  have hsale : transformSaleData sampleSale =
      { erp_sale_id := "S1", customer_erp_id := "E1", sale_amount := 5000,
        points_earned := 50, transaction_type := TransactionType.EARNED,
        source := TransactionSource.PURCHASE,
        description := "Points earned from sale INV1" } := by
    simp only [transformSaleData, sampleSale]
    norm_num [pyInt]
    rfl
  rw [hsale]
  exact ⟨rfl, rfl, by decide, rfl, rfl, rfl⟩

/-- C5, counterexample.  `calculate_commission` does not round: for
purchase_amount = 10.01 and rate = 3 the stored commission amount is
0.3003, not the claimed `round(10.01 * 3 / 100, 2) = 0.30`. -/
theorem c5_counterexample :
    calculateCommission affDB 1 (1001 / 100) (some 3) = Except.ok (affDBafter, 1)
      ∧ commissionAmountOf affDBafter 1 = 3003 / 10000
      ∧ commissionAmountOf affDBafter 1 ≠ specRound2 (1001 / 100 * 3 / 100) := by
  refine ⟨?_, ?_, ?_⟩
  · simp only [calculateCommission, affDB, affDBafter, List.find?, List.map]
    norm_num
  · simp only [commissionAmountOf, affDBafter, List.find?]
    norm_num
  · simp only [commissionAmountOf, affDBafter, List.find?, specRound2]
    norm_num

/-- C5, amended.  `calculate_commission` deterministically sets
`commission_amount = purchase_amount * rate / 100` exactly, with no rounding
(the claimed 2-decimal rounding happens only at `DECIMAL(15,2)` column
persistence, not in the service); `rate` is the explicit argument when given
and the affiliate's stored `commission_rate` otherwise; exactly one `PENDING`
`AffiliateCommission` row is written and the affiliate's `total_earnings` and
`unpaid_balance` each grow by exactly the commission amount. -/
theorem c5_calculate_commission_spec (s : AffDB) (referral_id : Nat) (p : ℚ)
    (rate? : Option ℚ) (ref : CustomerReferral) (aff : Affiliate)
    (href : s.referrals.find? (fun x => x.id == referral_id) = some ref)
    (haff : s.affiliates.find? (fun x => x.id == ref.affiliate_id) = some aff) :
    ∃ s', calculateCommission s referral_id p rate? = Except.ok (s', s.next_commission_id)
      ∧ s'.commissions = s.commissions ++
          [⟨s.next_commission_id, aff.id, aff.user_id, referral_id,
            p * (rate?.getD aff.commission_rate) / 100, rate?.getD aff.commission_rate,
            CommissionStatus.PENDING⟩]
      ∧ (s'.affiliates.find? (fun x => x.id == ref.affiliate_id)).map
          Affiliate.total_earnings
          = some (aff.total_earnings + p * (rate?.getD aff.commission_rate) / 100)
      ∧ (s'.affiliates.find? (fun x => x.id == ref.affiliate_id)).map
          Affiliate.unpaid_balance
          = some (aff.unpaid_balance + p * (rate?.getD aff.commission_rate) / 100) := by
  have hok : calculateCommission s referral_id p rate? = Except.ok
      ({ s with
          affiliates := s.affiliates.map (fun a => if a.id == aff.id then { a with total_earnings := a.total_earnings + p * (rate?.getD aff.commission_rate) / 100, unpaid_balance := a.unpaid_balance + p * (rate?.getD aff.commission_rate) / 100 } else a),
          referrals := s.referrals.map (fun x => if x.id == referral_id then { x with conversion_value := p, commission_amount := p * (rate?.getD aff.commission_rate) / 100 } else x),
          commissions := s.commissions ++ [⟨s.next_commission_id, aff.id, aff.user_id, referral_id, p * (rate?.getD aff.commission_rate) / 100, rate?.getD aff.commission_rate, CommissionStatus.PENDING⟩],
          next_commission_id := s.next_commission_id + 1 }, s.next_commission_id) := by
    simp only [calculateCommission, href, haff]
  have haid : aff.id = ref.affiliate_id := by simpa using List.find?_some haff
  have hfa : ((s.affiliates.map (fun a => if a.id == aff.id then { a with total_earnings := a.total_earnings + p * (rate?.getD aff.commission_rate) / 100, unpaid_balance := a.unpaid_balance + p * (rate?.getD aff.commission_rate) / 100 } else a)).find? (fun x => x.id == ref.affiliate_id))
      = some { aff with total_earnings := aff.total_earnings + p * (rate?.getD aff.commission_rate) / 100, unpaid_balance := aff.unpaid_balance + p * (rate?.getD aff.commission_rate) / 100 } := by
    rw [find?_map_pres _ _ (fun x => by
      by_cases h : (x.id == aff.id) = true <;> simp [h]) s.affiliates, haff]
    simp
  refine ⟨_, hok, rfl, ?_, ?_⟩
  · simp only [hfa, Option.map_some']
  · simp only [hfa, Option.map_some']

/-- C5, amended, witness: the spec's own example — a 1000.00 purchase at the
stored default rate 5% yields commission 50.00 added to the affiliate's
earnings. -/
theorem c5_witness :
    ∃ s', calculateCommission affDB 1 1000 none = Except.ok (s', 1)
      ∧ (s'.affiliates.find? (fun x => x.id == 1)).map Affiliate.total_earnings
          = some ((0 : ℚ) + 1000 * 5 / 100)
      ∧ ((0 : ℚ) + 1000 * 5 / 100) = 50 := by
  obtain ⟨s', hok, -, hte, -⟩ := c5_calculate_commission_spec affDB 1 1000 none
    ⟨1, 1, 2, 0, 0, "converted"⟩ ⟨1, 9, 5, 0, 0⟩ rfl rfl
  exact ⟨s', hok, hte, by norm_num⟩

/-- C6.  The redemption success path is unreachable: `redeem_reward` passes
a `metadata=` keyword that `deduct_points` does not declare, so the
validated redemption of 1 unit of the stock-1 reward raises `TypeError`
before any mutation and the stock is never decremented (and
`cancel_redemption` dies the same way, so nothing is ever restored).  The
denial part of the claim does hold in the code: insufficient points are
rejected with no side effect, before the doomed call. -/
theorem c6_redeem_metadata_type_error :
    redeemReward rewardDB 1 5 1
      = Except.error "TypeError: deduct_points got an unexpected keyword argument metadata"
    ∧ runRedeem rewardDB 1 5 1 = rewardDB
    ∧ (findReward (runRedeem rewardDB 1 5 1) 5).map Reward.stock_quantity = some 1
    ∧ redeemReward rewardDB 1 5 20 = Except.error "Insufficient points"
    ∧ runRedeem rewardDB 1 5 20 = rewardDB
    ∧ (∀ db cid rid qty, exOk (redeemReward db cid rid qty) = false) := by
  exact ⟨rfl, rfl, rfl, rfl, rfl, redeemReward_isError⟩

/-- C7.  `redeem_reward` has no expiry check and no status transition: the
reward whose `valid_until` (-50) is long past sails through every validation
and the call dies at the `TypeError` from the `metadata=` keyword, not at
any expiry rejection; and since every `redeem_reward` and
`cancel_redemption` call errors before mutating, no reward status is ever
set to `OUT_OF_STOCK` or flipped back to `ACTIVE`. -/
theorem c7_no_status_logic :
    redeemReward rewardDB 1 5 1
      = Except.error "TypeError: deduct_points got an unexpected keyword argument metadata"
    ∧ (findReward rewardDB 5).map Reward.valid_until = some (some (-50))
    ∧ (findReward (runRedeem rewardDB 1 5 1) 5).map Reward.status
        = some RewardStatus.ACTIVE
    ∧ (∀ db cid rid qty, runRedeem db cid rid qty = db)
    ∧ (∀ db redemption_id, runCancel db redemption_id = db)
    ∧ (∀ db redemption_id, exOk (cancelRedemption db redemption_id) = false) := by
  exact ⟨rfl, rfl, rfl, runRedeem_id, runCancel_id, cancelRedemption_isError⟩

/-- C10.  `transfer_points` can never succeed: with both customers present,
a positive amount and sufficient balance, building the receiver row reads
the nonexistent enum member `TransactionSource.TRANSFER`
(loyalty_service.py:142) and raises `AttributeError` before any ledger row
is added or any balance moves — the concrete 30-point transfer leaves both
balances untouched.  The claimed error cases do behave as stated. -/
theorem c10_transfer_attribute_error :
    transferPoints transferDB 1 2 30 "Points transfer" none
      = Except.error "AttributeError: TRANSFER"
    ∧ runTransfer transferDB 1 2 30 "Points transfer" none = transferDB
    ∧ totalOf (runTransfer transferDB 1 2 30 "Points transfer" none) 1 = 100
    ∧ totalOf (runTransfer transferDB 1 2 30 "Points transfer" none) 2 = 5
    ∧ transferPoints transferDB 1 2 0 "Points transfer" none
      = Except.error "Points must be positive"
    ∧ transferPoints transferDB 1 2 200 "Points transfer" none
      = Except.error "Insufficient points for transfer"
    ∧ transferPoints transferDB 1 3 30 "Points transfer" none
      = Except.error "Customer not found"
    ∧ (∀ db f t p d u, exOk (transferPoints db f t p d u) = false) := by
  exact ⟨rfl, rfl, rfl, rfl, rfl, rfl, rfl, transferPoints_isError⟩

/-- C8.  `adjust_points` (modelled from the spec, the method being absent
from `src/`) accepts any signed points value: it succeeds exactly when the
customer exists — applying the full signed delta with no balance floor — and
fails only with "Customer not found". -/
theorem c8_adjust_points_spec (db : DB) (customer_id : Nat) (points : Int)
    (desc : String) (ref : Option String) :
    (exOk (adjustPoints db customer_id points desc ref)
      = (findCustomer db customer_id).isSome)
    ∧ (findCustomer db customer_id = none →
        adjustPoints db customer_id points desc ref = Except.error "Customer not found")
    ∧ (∀ c, findCustomer db customer_id = some c →
        ∃ db', adjustPoints db customer_id points desc ref
            = Except.ok (db', db.next_txn_id)
          ∧ totalOf db' customer_id = c.total_points + points) := by
  cases hc : findCustomer db customer_id with
  | none =>
    refine ⟨by simp [adjustPoints, hc, exOk], fun _ => by simp [adjustPoints, hc],
      fun c h => absurd h (by simp)⟩
  | some c =>
    have hc' : db.customers.find? (fun x => x.id == customer_id) = some c := hc
    have hcid : c.id = customer_id := by simpa using List.find?_some hc'
    refine ⟨by simp [adjustPoints, hc, exOk], fun h => absurd h (by simp),
      fun c' h => ?_⟩
    obtain rfl : c = c' := by injection h
    refine ⟨{ db with
        customers := replaceCustomer db.customers customer_id
          { c with total_points := c.total_points + points },
        transactions := db.transactions ++
          [{ id := db.next_txn_id, user_id := some c.user_id, customer_id := customer_id,
             erp_sale_id := none, points := points,
             transaction_type := TransactionType.ADJUSTMENT,
             source := TransactionSource.MANUAL, description := desc, reference_id := ref,
             expires_at := none, is_active := true }],
        next_txn_id := db.next_txn_id + 1 }, by simp only [adjustPoints, hc], ?_⟩
    have hfind := find?_update_self Customer.id customer_id c
      { c with total_points := c.total_points + points } hcid db.customers hc'
    simp only [totalOf, findCustomer, replaceCustomer, hfind, Option.map_some',
      Option.getD_some]

/-- C8, witness: adjusting the zero-balance customer by -500 succeeds and
drives the balance to -500 (no balance floor). -/
theorem c8_witness :
    ∃ db', adjustPoints sampleDB 1 (-500) "Admin correction" none = Except.ok (db', 1)
      ∧ totalOf db' 1 = 0 + (-500) :=
  (c8_adjust_points_spec sampleDB 1 (-500) "Admin correction" none).2.2
    { id := 1, user_id := 7, erp_id := none, tier := CustomerTier.bronze,
      total_points := 0, lifetime_points := 0 } rfl

/-- C9.  `award_points` raises the target customer's `lifetime_points` by
exactly the awarded amount, `deduct_points` and `expire_points` never change
any customer's `lifetime_points`, and hence `lifetime_points` is
non-decreasing over every finite sequence of these operations. -/
theorem c9_lifetime_monotone :
    (∀ db cid points src desc ref uid exp c db' k,
        findCustomer db cid = some c →
        awardPoints db cid points src desc ref uid exp = Except.ok (db', k) →
        lifetimeOf db' cid = c.lifetime_points + points)
    ∧ (∀ db cid points src desc ref uid q,
        lifetimeOf (applyOp db (LoyaltyOp.deduct cid points src desc ref uid)) q
          = lifetimeOf db q)
    ∧ (∀ db cid now q,
        lifetimeOf (applyOp db (LoyaltyOp.expire cid now)) q = lifetimeOf db q)
    ∧ ∀ db ops q, lifetimeOf db q ≤ lifetimeOf (applyOps db ops) q := by
  refine ⟨?_, ?_, ?_, ?_⟩
  · intro db cid points src desc ref uid exp c db' k hc hok
    by_cases hpos : 0 < points
    · rw [awardPoints_ok db cid points src desc ref uid exp c hpos hc] at hok
      injection hok with hpair
      injection hpair with hdb hk
      subst hdb
      have hc' : db.customers.find? (fun x => x.id == cid) = some c := hc
      have hcid : c.id = cid := by simpa using List.find?_some hc'
      have hid : (awardTierCheck
          { c with total_points := c.total_points + points,
                   lifetime_points := c.lifetime_points + points }).1.id = cid := by
        rw [awardTierCheck_id]; exact hcid
      have hfind := find?_update_self Customer.id cid c
        (awardTierCheck
          { c with total_points := c.total_points + points,
                   lifetime_points := c.lifetime_points + points }).1
        hid db.customers hc'
      simp only [lifetimeOf, findCustomer, replaceCustomer, hfind, Option.map_some',
        Option.getD_some, awardTierCheck_lifetime]
    · rw [show awardPoints db cid points src desc ref uid exp
          = Except.error "Points must be positive" from by
            simp [awardPoints, if_pos (not_lt.mp hpos)]] at hok
      exact absurd hok (by simp)
  · intro db cid points src desc ref uid q
    by_cases hpos : 0 < points
    · cases hc : findCustomer db cid with
      | none => simp [applyOp, deductPoints, hc, if_neg (not_le.mpr hpos)]
      | some c =>
        by_cases hge : points ≤ c.total_points
        · have hok := deductPoints_ok db cid points src desc ref uid c hpos hc hge
          simp only [applyOp, hok]
          exact lifetimeOf_replace_eq db _ cid c
            { c with total_points := c.total_points - points } hc rfl rfl rfl q
        · simp [applyOp, deductPoints, hc, if_neg (not_le.mpr hpos),
            if_pos (not_le.mp hge)]
    · simp [applyOp, deductPoints, if_pos (not_lt.mp hpos)]
  · intro db cid now q
    rcases expirePoints_customers db cid now with h | ⟨c, hc, h⟩
    · unfold lifetimeOf findCustomer
      rw [show (applyOp db (LoyaltyOp.expire cid now)).customers = db.customers from h]
    · exact lifetimeOf_replace_eq db _ cid c
        { c with total_points := c.total_points -
            ((db.transactions.filter (isExpiredRow cid now)).map
              LoyaltyTransaction.points).sum }
        hc rfl rfl h q
  · intro db ops q
    induction ops generalizing db with
    | nil => exact le_refl _
    | cons op t ih =>
      exact le_trans (applyOp_lifetime_le db op q) (ih (applyOp db op))

/-- C9, witness: awarding 100 points to the fresh customer raises
`lifetime_points` from 0 to 100. -/
theorem c9_witness :
    lifetimeOf (applyOp sampleDB
      (LoyaltyOp.award 1 100 TransactionSource.PURCHASE "Points awarded" none none none)) 1
      = 0 + 100 :=
  c9_lifetime_monotone.1 sampleDB 1 100 TransactionSource.PURCHASE "Points awarded"
    none none none
    { id := 1, user_id := 7, erp_id := none, tier := CustomerTier.bronze,
      total_points := 0, lifetime_points := 0 } _ 1 rfl rfl

end LoyaltyERP
